import Mathlib

/-!
Shallow embedding of the cooldown subsystem in `src/util/Cooldowns.ts`
(class `Cooldowns`), the rate-limiting core of the command framework.

Conventions of the embedding:
* Timestamps are integers counting milliseconds since the epoch, exactly as a
  JavaScript `Date` stores them (`Date.getTime()` is always an integer).
* A possibly-invalid `Date` value is `Option ℤ`; `none` models an Invalid
  Date, whose time value is NaN.
* JavaScript numbers that flow through duration parsing are modelled as
  `Option ℚ`, with `none` modelling NaN; rational arithmetic is exact where
  the double arithmetic of the source is exact on the integral values the
  claims exercise.
* Code that can `throw` returns `Except CooldownError α` together with the
  state as mutated up to the throw point, so a throw that happens after a
  store mutation would be visible.
* The two stores of the class (`_cooldowns`, the Mongo collection behind
  `cooldownSchema`) are association lists with at most one entry per key,
  matching `Map` / `_id`-keyed documents.
-/

/-- Characters of a JavaScript string split on a single-character separator:
`String.prototype.split(sep)` keeps empty fragments, including leading and
trailing ones. -/
def charSplit (sep : Char) : List Char → List (List Char)
  | [] => [[]]
  | c :: rest =>
    let r := charSplit sep rest
    if c = sep then [] :: r
    else
      match r with
      | [] => [[c]]
      | h :: t => (c :: h) :: t

/-- JavaScript `s.split(sep)` for a single-character separator. -/
def jsSplit (s : String) (sep : Char) : List String :=
  (charSplit sep s.data).map String.mk

/-- Numeric value of a decimal digit character. -/
def digitVal (c : Char) : ℕ := c.toNat - '0'.toNat

/-- Value of a list of decimal digit characters, most significant first. -/
def digitsToNat (l : List Char) : ℕ := l.foldl (fun a c => a * 10 + digitVal c) 0

/-- Unsigned part of the decimal fragment of JavaScript string-to-number
coercion: digits with an optional fractional part (`"10"`, `"1.5"`, `"5."`,
`".5"`); `none` is NaN. -/
def jsUnsignedNumber (body : List Char) : Option ℚ :=
  let intPart := body.takeWhile (·.isDigit)
  let rest := body.dropWhile (·.isDigit)
  match rest with
  | [] => if intPart.isEmpty then none else some (digitsToNat intPart : ℚ)
  | '.' :: fr =>
    if fr.all (·.isDigit) && !(intPart.isEmpty && fr.isEmpty) then
      some ((digitsToNat intPart : ℚ) + (digitsToNat fr : ℚ) / (10 ^ fr.length))
    else none
  | _ => none

/-- JavaScript unary plus on a string (`+split[0]` in `verifyCooldown`),
restricted to the decimal fragment the cooldown grammar uses: the empty
string is 0, an optional sign precedes digits with an optional fractional
part, and anything else (hex, exponents, `Infinity`, inner whitespace) is
NaN (`none`). -/
def jsToNumber (s : String) : Option ℚ :=
  match s.data with
  | [] => some 0
  | '-' :: r => (jsUnsignedNumber r).map (fun q => -q)
  | '+' :: r => jsUnsignedNumber r
  | r => jsUnsignedNumber r

/-- ASCII lowercasing, as `String.prototype.toLowerCase` acts on the unit
tokens `s`, `m`, `h`, `d` and their uppercase variants. -/
def jsToLower (s : String) : String := ⟨s.data.map Char.toLower⟩

/-- Whether `l` starts with the pattern `pat`. -/
def charsStartWith : List Char → List Char → Bool
  | _, [] => true
  | [], _ :: _ => false
  | c :: cs, p :: ps => c = p && charsStartWith cs ps

/-- Replacement of the first occurrence of `pat` (as JavaScript
`String.prototype.replace` with a string pattern does). -/
def replaceFirstChars (pat rep : List Char) : List Char → List Char
  | [] => if charsStartWith [] pat then rep else []
  | c :: cs =>
    if charsStartWith (c :: cs) pat then rep ++ (c :: cs).drop pat.length
    else c :: replaceFirstChars pat rep cs

/-- JavaScript `s.replace(pat, rep)` with a string pattern: first occurrence
only. -/
def jsReplace (s pat rep : String) : String :=
  ⟨replaceFirstChars pat.data rep.data s.data⟩

/-- Truncation toward zero on rationals, the rounding used by JavaScript's
`ToIntegerOrInfinity` (Date clipping) and by the `%` remainder operator. -/
def ratTrunc (q : ℚ) : ℤ := if q < 0 then -⌊-q⌋ else ⌊q⌋

/-- JavaScript remainder `a % b` on finite numbers: `a - b * trunc (a / b)`,
so the result carries the sign of the dividend. -/
def jsMod (a b : ℚ) : ℚ := a - b * ratTrunc (a / b)

/-- Lookup in an association list, as `Map.prototype.get`. -/
def mapGet {K V : Type} [DecidableEq K] : List (K × V) → K → Option V
  | [], _ => none
  | (k', v') :: rest, k => if k' = k then some v' else mapGet rest k

/-- Overwrite-or-insert in an association list, as `Map.prototype.set` and as
a Mongo `findOneAndUpdate` with `upsert: true` keyed on `_id`. -/
def mapSet {K V : Type} [DecidableEq K] : List (K × V) → K → V → List (K × V)
  | [], k, v => [(k, v)]
  | (k', v') :: rest, k, v =>
    if k' = k then (k, v) :: rest else (k', v') :: mapSet rest k v

/-- Removal from an association list, as `Map.prototype.delete` and as a
Mongo `deleteOne` keyed on `_id` (idempotent: no-op when absent). -/
def mapDelete {K V : Type} [DecidableEq K] (l : List (K × V)) (k : K) : List (K × V) :=
  l.filter (fun e => decide (e.1 ≠ k))

/-- A JavaScript `Date` value: its integral millisecond time value, or `none`
for an Invalid Date (time value NaN). -/
abbrev JsDate := Option ℤ

/-- Comparison `x > y` on JS numbers where either side may be NaN (`none`):
any comparison against NaN is false. -/
def jsNumGt (x y : Option ℚ) : Bool :=
  match x, y with
  | some a, some b => decide (b < a)
  | _, _ => false

/-- Comparison `x >= y` on JS numbers where either side may be NaN (`none`). -/
def jsNumGe (x y : Option ℚ) : Bool :=
  match x, y with
  | some a, some b => decide (b ≤ a)
  | _, _ => false

/-- The `cooldownTypes` array exported by `Cooldowns.ts`. -/
def cooldownTypes : List String := ["perUser", "perUserPerGuild", "perGuild", "global"]

/-- The `cooldownDurations` object: seconds per unit token. The source guards
with the truthiness of `cooldownDurations[type]`, which coincides with key
membership because every stored multiplier is nonzero. -/
def cooldownDurations (t : String) : Option ℚ :=
  if t = "s" then some 1
  else if t = "m" then some 60
  else if t = "h" then some (60 * 60)
  else if t = "d" then some (60 * 60 * 24)
  else none

/-- Errors thrown by `Cooldowns`. Each constructor corresponds to one `throw`
site of the source (the spec groups the three duration constructors as
`MalformedDurationError`, `invalidScope` is its `InvalidScopeError` and
`unknownCooldownType` its `UnknownScopeError`); `typeError` models the
runtime `TypeError` that `duration!.split` would raise on `undefined`. -/
inductive CooldownError
  | invalidScope (cooldownType : String)
  | unknownCooldownType (cooldownType : String)
  | malformedDuration (duration : String)
  | unknownDurationType (t : String)
  | invalidQuantity (quantity : ℚ)
  | typeError
  deriving DecidableEq

/-- Outcome of `canRunAction`: the source returns either the boolean `true`
(allowed) or the rendered error message string (denied). -/
inductive RunResult
  | allowed
  | denied (message : String)
  deriving DecidableEq

/-- The `InternalCooldownConfig` argument shape of the public methods. -/
structure InternalCooldownConfig where
  cooldownType : String
  userId : String
  actionId : String
  guildId : Option String := none
  duration : Option (ℚ ⊕ String) := none
  errorMessage : Option String := none

/-- The `CooldownConfig` constructor argument (all fields optional, the
constructor destructuring supplies the defaults). -/
structure CooldownConfig where
  errorMessage : Option String := none
  botOwnersBypass : Option Bool := none
  dbRequired : Option ℚ := none

/-- State of a `Cooldowns` instance: the fast-path `_cooldowns` map, the
durable `cooldownSchema` collection, and the constructor configuration
(`_errorMessage`, `_botOwnersBypass`, `_dbRequired`, plus the
`instance.botOwners` list consulted by `canBypass`). -/
structure CooldownsState where
  cooldowns : List (Option String × JsDate)
  db : List (Option String × JsDate)
  errorMessage : String
  botOwnersBypass : Bool
  dbRequired : ℚ
  botOwners : List String
  deriving DecidableEq

namespace Cooldowns

/-- The constructor's configuration defaulting (lines 36-49). The async
`loadCooldowns` startup sweep only exchanges records with the external
durable store and is not part of the per-request logic the claims concern;
a fresh instance starts with both stores as given (empty for a new
deployment). -/
def mk (botOwners : List String) (cooldownConfig : CooldownConfig) : CooldownsState :=
  { cooldowns := []
    db := []
    errorMessage := cooldownConfig.errorMessage.getD "Please wait \x7bTIME\x7d before doing that again."
    botOwnersBypass := cooldownConfig.botOwnersBypass.getD false
    dbRequired := cooldownConfig.dbRequired.getD 300
    botOwners := botOwners }

/-- Key derivation (lines 139-171). The guard `!guildId` of the source is
true exactly for `undefined` and for the empty string, which is what
`guildId.getD "" = ""` decides; when no branch matches the function falls
through and returns `undefined` (`none`). -/
def getKey (cooldownType userId actionId : String) (guildId : Option String) :
    Except CooldownError (Option String) :=
  if (cooldownType = "perUserPerGuild" ∨ cooldownType = "perGuild") ∧ guildId.getD "" = "" then
    .error (.invalidScope cooldownType)
  else if cooldownType = "perUser" then
    .ok (some (userId ++ "-" ++ actionId))
  else if cooldownType = "perUserPerGuild" then
    .ok (some (userId ++ "-" ++ guildId.getD "" ++ "-" ++ actionId))
  else if cooldownType = "perGuild" then
    .ok (some (guildId.getD "" ++ "-" ++ actionId))
  else if cooldownType = "global" then
    .ok (some actionId)
  else
    .ok none

/-- Lines 65-69: `getKeyFromCooldownUsage` passes the usage's `guildId`
through without defaulting. -/
def getKeyFromCooldownUsage (u : InternalCooldownConfig) : Except CooldownError (Option String) :=
  getKey u.cooldownType u.userId u.actionId u.guildId

/-- Lines 173-175. -/
def canBypass (st : CooldownsState) (userId : String) : Bool :=
  st.botOwnersBypass && st.botOwners.contains userId

/-- Duration parsing (lines 106-137). A numeric argument is returned
unchanged; the string form is split on single spaces, the unit is checked
before the quantity, and a NaN quantity (`none`) skips the `quantity <= 0`
guard exactly as NaN comparisons do in the source, making the result NaN. -/
def verifyCooldown (duration : ℚ ⊕ String) : Except CooldownError (Option ℚ) :=
  match duration with
  | .inl n => .ok (some n)
  | .inr s =>
    let split := jsSplit s ' '
    if split.length ≠ 2 then .error (.malformedDuration s)
    else
      let t := jsToLower (split.getD 1 "")
      match cooldownDurations t with
      | none => .error (.unknownDurationType t)
      | some mult =>
        match jsToNumber (split.headD "") with
        | none => .ok none
        | some quantity =>
          if quantity ≤ 0 then .error (.invalidQuantity quantity)
          else .ok (some (quantity * mult))

/-- The `duration!` non-null assertion in `start`: at runtime an absent
duration reaches `duration.split` and raises a `TypeError`. -/
def verifyCooldownOpt (duration : Option (ℚ ⊕ String)) : Except CooldownError (Option ℚ) :=
  match duration with
  | none => .error .typeError
  | some d => verifyCooldown d

/-- Expiry computed by `expires.setSeconds(expires.getSeconds() + seconds)`
(lines 200-201): a Date stores integral milliseconds, so the result is
`now + 1000 * seconds` clipped to an integer toward zero. -/
def jsDateAddSeconds (now : ℤ) (s : ℚ) : ℤ :=
  ratTrunc ((now : ℚ) + s * 1000)

/-- Time value of a Date as a JS number: NaN (`none`) for an Invalid Date. -/
def jsDateToNum (d : JsDate) : Option ℚ :=
  match d with
  | some e => some ((e : ℚ))
  | none => none

/-- The quantity `(expires.getTime() - now.getTime()) / 1000`; NaN when the
stored Date is invalid. -/
def jsDateSecondsDiff (expires : JsDate) (now : ℤ) : Option ℚ :=
  match expires with
  | some e => some (((e : ℚ) - (now : ℚ)) / 1000)
  | none => none

/-- Lines 71-77: delete the fast-path entry, then the durable record. -/
def cancelCooldown (st : CooldownsState) (u : InternalCooldownConfig) :
    Except CooldownError Unit × CooldownsState :=
  match getKeyFromCooldownUsage u with
  | .error e => (.error e, st)
  | .ok key =>
    (.ok (), { st with cooldowns := mapDelete st.cooldowns key
                       db := mapDelete st.db key })

/-- Lines 79-104: overwrite the fast-path entry; upsert the durable record
only when `(expires - now) / 1000 > _dbRequired` (strict). -/
def updateCooldown (st : CooldownsState) (u : InternalCooldownConfig)
    (expires : JsDate) (now : ℤ) : Except CooldownError Unit × CooldownsState :=
  match getKeyFromCooldownUsage u with
  | .error e => (.error e, st)
  | .ok key =>
    let cooldowns' := mapSet st.cooldowns key expires
    let secondsDiff : Option ℚ := jsDateSecondsDiff expires now
    let db' := if jsNumGt secondsDiff (some st.dbRequired)
               then mapSet st.db key expires else st.db
    (.ok (), { st with cooldowns := cooldowns', db := db' })

/-- Lines 177-219: bypass check, cooldown-type check, duration parsing, key
derivation (with `guildId` defaulted to `''`), then the durable upsert when
`seconds >= _dbRequired` and the unconditional fast-path write. -/
def start (st : CooldownsState) (u : InternalCooldownConfig) (now : ℤ) :
    Except CooldownError Unit × CooldownsState :=
  let guildId := u.guildId.getD ""
  if canBypass st u.userId then (.ok (), st)
  else if !(cooldownTypes.contains u.cooldownType) then
    (.error (.unknownCooldownType u.cooldownType), st)
  else
    match verifyCooldownOpt u.duration with
    | .error e => (.error e, st)
    | .ok seconds =>
      match getKey u.cooldownType u.userId u.actionId (some guildId) with
      | .error e => (.error e, st)
      | .ok key =>
        let expires : JsDate :=
          match seconds with
          | some s => some (jsDateAddSeconds now s)
          | none => none
        let db' := if jsNumGe seconds (some st.dbRequired)
                   then mapSet st.db key expires else st.db
        (.ok (), { st with db := db', cooldowns := mapSet st.cooldowns key expires })

/-- Rendering of the remaining time (lines 247-257): floor-division
decomposition of `secondsDiff` into days, hours, minutes, seconds, each
printed only when strictly positive except the final seconds field. A NaN
difference (Invalid Date in the cache) renders as `"NaNs"` because every
`> 0` guard is false on NaN and `${NaN}` prints `NaN`. -/
def remainingTimeString (secondsDiff : Option ℚ) : String :=
  match secondsDiff with
  | none => "NaNs"
  | some sd =>
    let d := ⌊sd / (3600 * 24)⌋
    let h := ⌊jsMod sd (3600 * 24) / 3600⌋
    let m := ⌊jsMod sd 3600 / 60⌋
    let s := ⌊jsMod sd 60⌋
    (if d > 0 then toString d ++ "d " else "")
      ++ (if h > 0 then toString h ++ "h " else "")
      ++ (if m > 0 then toString m ++ "m " else "")
      ++ toString s ++ "s"

/-- The decision path (lines 221-260): bypass, key derivation (`guildId`
defaulted to `''`), fast-path lookup. A missing entry allows; `now > expires`
purges the fast-path entry and allows (an Invalid Date never satisfies the
comparison); otherwise the remaining time is rendered into the error-message
template at the `{TIME}` token and returned as the denial. The durable store
is never consulted here. -/
def canRunAction (st : CooldownsState) (u : InternalCooldownConfig) (now : ℤ) :
    Except CooldownError RunResult × CooldownsState :=
  let guildId := u.guildId.getD ""
  let errorMessage := u.errorMessage.getD st.errorMessage
  if canBypass st u.userId then (.ok .allowed, st)
  else
    match getKey u.cooldownType u.userId u.actionId (some guildId) with
    | .error e => (.error e, st)
    | .ok key =>
      match mapGet st.cooldowns key with
      | none => (.ok .allowed, st)
      | some expires =>
        if jsNumGt (some (now : ℚ)) (jsDateToNum expires) then
          (.ok .allowed, { st with cooldowns := mapDelete st.cooldowns key })
        else
          (.ok (.denied (jsReplace errorMessage "\x7bTIME\x7d"
            (remainingTimeString (jsDateSecondsDiff expires now)))), st)

end Cooldowns

/-! Pointwise lemmas about the association-list maps, and arithmetic bridges
between the rational floor arithmetic of the source and natural-number
division. -/

theorem mapGet_mapSet_self {K V : Type} [DecidableEq K] (l : List (K × V)) (k : K) (v : V) :
    mapGet (mapSet l k v) k = some v := by
  induction l with
  | nil => simp [mapSet, mapGet]
  | cons kv rest ih =>
    obtain ⟨k', v'⟩ := kv
    by_cases h : k' = k <;> simp [mapSet, mapGet, h, ih]

theorem mapGet_mapDelete_self {K V : Type} [DecidableEq K] (l : List (K × V)) (k : K) :
    mapGet (mapDelete l k) k = none := by
  induction l with
  | nil => simp [mapDelete, mapGet]
  | cons kv rest ih =>
    obtain ⟨k', v'⟩ := kv
    by_cases h : k' = k <;> simp_all [mapDelete, mapGet, List.filter]

theorem canRunAction_db_frame (st : CooldownsState) (u : InternalCooldownConfig) (now : ℤ) :
    ((Cooldowns.canRunAction st u now).2).db = st.db := by
  simp only [Cooldowns.canRunAction]
  repeat' split
  all_goals rfl

theorem floor_natCast_div_natCast (n k : ℕ) : ⌊((n : ℚ) / (k : ℚ))⌋ = (n / k : ℕ) := by
  have h := Rat.floor_intCast_div_natCast (n : ℤ) k
  push_cast at h
  rw [h]
  norm_cast

theorem ratTrunc_of_nonneg {q : ℚ} (h : 0 ≤ q) : ratTrunc q = ⌊q⌋ := by
  simp [ratTrunc, not_lt.mpr h]

theorem jsMod_natCast (n k : ℕ) : jsMod (n : ℚ) (k : ℚ) = ((n % k : ℕ) : ℚ) := by
  rcases Nat.eq_zero_or_pos k with hk | hk
  · subst hk; simp [jsMod, ratTrunc]
  · unfold jsMod
    rw [ratTrunc_of_nonneg (by positivity), floor_natCast_div_natCast]
    have h' : (k : ℚ) * ((n / k : ℕ) : ℚ) + ((n % k : ℕ) : ℚ) = (n : ℚ) := by
      exact_mod_cast Nat.div_add_mod n k
    rw [Int.cast_natCast]
    linarith

theorem int_toString_natCast (m : ℕ) : toString ((m : ℕ) : ℤ) = toString m := rfl

theorem remainingTimeString_natCast (n : ℕ) :
    Cooldowns.remainingTimeString (some (n : ℚ)) =
      (if 0 < n / 86400 then toString (n / 86400) ++ "d " else "")
        ++ (if 0 < n % 86400 / 3600 then toString (n % 86400 / 3600) ++ "h " else "")
        ++ (if 0 < n % 3600 / 60 then toString (n % 3600 / 60) ++ "m " else "")
        ++ toString (n % 60) ++ "s" := by
  have c1 : (3600 * 24 : ℚ) = ((86400 : ℕ) : ℚ) := by norm_num
  have c2 : (3600 : ℚ) = ((3600 : ℕ) : ℚ) := by norm_num
  have c3 : (60 : ℚ) = ((60 : ℕ) : ℚ) := by norm_num
  have hd : ⌊(n : ℚ) / (3600 * 24)⌋ = ((n / 86400 : ℕ) : ℤ) := by
    rw [c1]; exact floor_natCast_div_natCast n 86400
  have hm1 : jsMod (n : ℚ) (3600 * 24) = ((n % 86400 : ℕ) : ℚ) := by
    rw [c1]; exact jsMod_natCast n 86400
  have hh : ⌊((n % 86400 : ℕ) : ℚ) / 3600⌋ = ((n % 86400 / 3600 : ℕ) : ℤ) := by
    rw [c2]; exact floor_natCast_div_natCast _ 3600
  have hm2 : jsMod (n : ℚ) 3600 = ((n % 3600 : ℕ) : ℚ) := by
    rw [c2]; exact jsMod_natCast n 3600
  have hm : ⌊((n % 3600 : ℕ) : ℚ) / 60⌋ = ((n % 3600 / 60 : ℕ) : ℤ) := by
    rw [c3]; exact floor_natCast_div_natCast _ 60
  have hm3 : jsMod (n : ℚ) 60 = ((n % 60 : ℕ) : ℚ) := by
    rw [c3]; exact jsMod_natCast n 60
  simp only [Cooldowns.remainingTimeString, hd, hm1, hh, hm2, hm, hm3,
    Int.floor_natCast, gt_iff_lt, Int.natCast_pos, int_toString_natCast]

/-! Key derivation: determinism and injectivity (claim C2). -/

deriving instance DecidableEq for Except

/-- No hyphen occurs in the string; the id separator of `getKey` is `'-'`. -/
def hyphenFree (s : String) : Prop := '-' ∉ s.data

instance (s : String) : Decidable (hyphenFree s) :=
  inferInstanceAs (Decidable ('-' ∉ s.data))

theorem string_data_inj {s t : String} (h : s.data = t.data) : s = t := String.ext h

theorem hyphen_split_inj {l₁ r₁ l₂ r₂ : List Char} (h₁ : '-' ∉ l₁) (h₂ : '-' ∉ l₂)
    (h : l₁ ++ '-' :: r₁ = l₂ ++ '-' :: r₂) : l₁ = l₂ ∧ r₁ = r₂ := by
  induction l₁ generalizing l₂ with
  | nil =>
    cases l₂ with
    | nil => simpa using h
    | cons b bs =>
      exfalso
      simp only [List.nil_append, List.cons_append, List.cons.injEq] at h
      exact h₂ (by rw [← h.1]; exact List.mem_cons_self _ _)
  | cons a as ih =>
    cases l₂ with
    | nil =>
      exfalso
      simp only [List.cons_append, List.nil_append, List.cons.injEq] at h
      exact h₁ (by rw [h.1]; exact List.mem_cons_self _ _)
    | cons b bs =>
      simp only [List.cons_append, List.cons.injEq] at h
      obtain ⟨hab, htail⟩ := h
      have h₁' : '-' ∉ as := fun hm => h₁ (List.mem_cons_of_mem _ hm)
      have h₂' : '-' ∉ bs := fun hm => h₂ (List.mem_cons_of_mem _ hm)
      obtain ⟨hl, hr⟩ := ih h₁' h₂' htail
      exact ⟨by rw [hab, hl], hr⟩

theorem sep_append_data (u a : String) : (u ++ "-" ++ a).data = u.data ++ '-' :: a.data := by
  have hd : "-".data = ['-'] := rfl
  rw [String.data_append, String.data_append, hd, List.append_assoc]
  rfl

theorem sep3_append_data (u g a : String) :
    (u ++ "-" ++ g ++ "-" ++ a).data = u.data ++ '-' :: (g.data ++ '-' :: a.data) := by
  have hd : "-".data = ['-'] := rfl
  rw [String.data_append, String.data_append, String.data_append, String.data_append, hd]
  simp [List.append_assoc]

theorem append_hyphen_inj {u₁ a₁ u₂ a₂ : String}
    (hu₁ : hyphenFree u₁) (hu₂ : hyphenFree u₂)
    (h : u₁ ++ "-" ++ a₁ = u₂ ++ "-" ++ a₂) : u₁ = u₂ ∧ a₁ = a₂ := by
  have hdata := congrArg String.data h
  rw [sep_append_data, sep_append_data] at hdata
  obtain ⟨hl, hr⟩ := hyphen_split_inj hu₁ hu₂ hdata
  exact ⟨string_data_inj hl, string_data_inj hr⟩

theorem append_hyphen3_inj {u₁ g₁ a₁ u₂ g₂ a₂ : String}
    (hu₁ : hyphenFree u₁) (hg₁ : hyphenFree g₁) (hu₂ : hyphenFree u₂) (hg₂ : hyphenFree g₂)
    (h : u₁ ++ "-" ++ g₁ ++ "-" ++ a₁ = u₂ ++ "-" ++ g₂ ++ "-" ++ a₂) :
    u₁ = u₂ ∧ g₁ = g₂ ∧ a₁ = a₂ := by
  have hdata := congrArg String.data h
  rw [sep3_append_data, sep3_append_data] at hdata
  obtain ⟨hl, hr⟩ := hyphen_split_inj hu₁ hu₂ hdata
  obtain ⟨hg, ha⟩ := hyphen_split_inj hg₁ hg₂ hr
  exact ⟨string_data_inj hl, string_data_inj hg, string_data_inj ha⟩

/-- C2, counterexample: key derivation is not injective on arbitrary id
strings within one scope. In scope `perUser` the distinct tuples
`(userId "a-b", actionId "c")` and `(userId "a", actionId "b-c")` both derive
the key `"a-b-c"`, because ids may themselves contain the `'-'` separator. -/
theorem C2_injectivity_counterexample :
    Cooldowns.getKey "perUser" "a-b" "c" (some "") = .ok (some "a-b-c")
    ∧ Cooldowns.getKey "perUser" "a" "b-c" (some "") = .ok (some "a-b-c")
    ∧ ("a-b", "c") ≠ ("a", "b-c") := by
  refine ⟨by decide, by decide, by decide⟩

/-- C2 (amended): key derivation is deterministic — the key depends on
nothing but (scope, userId, actionId, guildId) — and within each scope it is
injective on the identifying fields that scope incorporates, provided every
id that precedes a `'-'` separator in the key (userId, guildId) contains no
`'-'` character (guild ids must also be nonempty so that derivation
succeeds). -/
theorem C2_key_deterministic_and_injective_per_scope
    (u₁ a₁ g₁ u₂ a₂ g₂ : String)
    (hu₁ : hyphenFree u₁) (hg₁ : hyphenFree g₁)
    (hu₂ : hyphenFree u₂) (hg₂ : hyphenFree g₂)
    (hg₁e : g₁ ≠ "") (hg₂e : g₂ ≠ "") :
    (∀ u v : InternalCooldownConfig,
        u.cooldownType = v.cooldownType → u.userId = v.userId →
        u.actionId = v.actionId → u.guildId = v.guildId →
        Cooldowns.getKeyFromCooldownUsage u = Cooldowns.getKeyFromCooldownUsage v)
    ∧ (Cooldowns.getKey "perUser" u₁ a₁ (some g₁) = Cooldowns.getKey "perUser" u₂ a₂ (some g₂) →
        u₁ = u₂ ∧ a₁ = a₂)
    ∧ (Cooldowns.getKey "perUserPerGuild" u₁ a₁ (some g₁) =
          Cooldowns.getKey "perUserPerGuild" u₂ a₂ (some g₂) →
        u₁ = u₂ ∧ g₁ = g₂ ∧ a₁ = a₂)
    ∧ (Cooldowns.getKey "perGuild" u₁ a₁ (some g₁) = Cooldowns.getKey "perGuild" u₂ a₂ (some g₂) →
        g₁ = g₂ ∧ a₁ = a₂)
    ∧ (Cooldowns.getKey "global" u₁ a₁ (some g₁) = Cooldowns.getKey "global" u₂ a₂ (some g₂) →
        a₁ = a₂) := by
  refine ⟨?_, ?_, ?_, ?_, ?_⟩
  · intro u v h1 h2 h3 h4
    unfold Cooldowns.getKeyFromCooldownUsage
    rw [h1, h2, h3, h4]
  · intro h
    simp [Cooldowns.getKey] at h
    exact append_hyphen_inj hu₁ hu₂ h
  · intro h
    simp [Cooldowns.getKey, hg₁e, hg₂e] at h
    exact append_hyphen3_inj hu₁ hg₁ hu₂ hg₂ h
  · intro h
    simp [Cooldowns.getKey, hg₁e, hg₂e] at h
    exact append_hyphen_inj hg₁ hg₂ h
  · intro h
    simp [Cooldowns.getKey] at h
    exact h

/-- C2, witness: the amended injectivity theorem applied at the concrete
hyphen-free ids `userId "alice"`, `actionId "ping"`, `guildId "guild"`. -/
theorem C2_injectivity_witness :
    ("alice" : String) = "alice" ∧ ("ping" : String) = "ping" :=
  (C2_key_deterministic_and_injective_per_scope "alice" "ping" "guild" "alice" "ping" "guild"
    (by decide) (by decide) (by decide) (by decide) (by decide) (by decide)).2.1 rfl

/-! Duration parsing (claim C4). -/

/-- Successful parse of a two-token duration string: shared general form of
the `verifyCooldown` grammar (unit recognized case-insensitively, quantity
parsed positive). -/
theorem verifyCooldown_ok_of_two_token (s t₀ t₁ : String) (q mult : ℚ)
    (hsplit : jsSplit s ' ' = [t₀, t₁]) (hq : jsToNumber t₀ = some q) (hqpos : 0 < q)
    (hmult : cooldownDurations (jsToLower t₁) = some mult) :
    Cooldowns.verifyCooldown (.inr s) = .ok (some (q * mult)) := by
  simp only [Cooldowns.verifyCooldown]
  rw [hsplit]
  simp [hmult, hq, not_le.mpr hqpos]

/-- C4: duration parsing. `"10 m"` parses to 600 seconds and `"1 d"` to
86400; `"0 s"`, `"10 x"` and the single-token `"10"` fail with the
corresponding malformed-duration errors; a numeric 45 passes through
unchanged. In general a two-token string whose unit (case-insensitively)
maps to a multiplier and whose quantity parses positive returns quantity
times multiplier, a failure happens on a two-token string exactly when the
unit is unrecognized or the quantity parses to a non-positive number, and
any string that does not split into exactly two space-separated tokens
fails. -/
theorem C4_duration_parsing :
    Cooldowns.verifyCooldown (.inr "10 m") = .ok (some 600)
    ∧ Cooldowns.verifyCooldown (.inr "1 d") = .ok (some 86400)
    ∧ Cooldowns.verifyCooldown (.inr "0 s") = .error (.invalidQuantity 0)
    ∧ Cooldowns.verifyCooldown (.inr "10 x") = .error (.unknownDurationType "x")
    ∧ Cooldowns.verifyCooldown (.inr "10") = .error (.malformedDuration "10")
    ∧ Cooldowns.verifyCooldown (.inl 45) = .ok (some 45)
    ∧ (∀ (s t₀ t₁ : String) (q mult : ℚ), jsSplit s ' ' = [t₀, t₁] →
        jsToNumber t₀ = some q → 0 < q → cooldownDurations (jsToLower t₁) = some mult →
        Cooldowns.verifyCooldown (.inr s) = .ok (some (q * mult)))
    ∧ (∀ s t₀ t₁ : String, jsSplit s ' ' = [t₀, t₁] →
        ((Cooldowns.verifyCooldown (.inr s)).isOk = false ↔
          cooldownDurations (jsToLower t₁) = none
          ∨ ∃ q, jsToNumber t₀ = some q ∧ q ≤ 0))
    ∧ (∀ s : String, (jsSplit s ' ').length ≠ 2 →
        Cooldowns.verifyCooldown (.inr s) = .error (.malformedDuration s)) := by
  have hgen := verifyCooldown_ok_of_two_token
  refine ⟨?_, ?_, by decide, by decide, by decide, rfl, hgen, ?_, ?_⟩
  · rw [hgen "10 m" "10" "m" 10 60 (by decide) (by decide) (by decide) (by decide)]
    norm_num
  · rw [hgen "1 d" "1" "d" 1 (60 * 60 * 24) (by decide) (by decide) (by decide) (by rfl)]
    norm_num
  · intro s t₀ t₁ hsplit
    simp only [Cooldowns.verifyCooldown]
    rw [hsplit]
    rcases hmult : cooldownDurations (jsToLower t₁) with _ | mult
    · simp [hmult, Except.isOk, Except.toBool]
    · rcases hq : jsToNumber t₀ with _ | q
      · simp [hmult, hq, Except.isOk, Except.toBool]
      · by_cases hle : q ≤ 0 <;> simp [hmult, hq, hle, Except.isOk, Except.toBool]
  · intro s hlen
    simp only [Cooldowns.verifyCooldown]
    simp [hlen]

/-- C4, witness: the general clause of the parsing theorem applied to the
concrete two-token string `"3 M"` (exercising case-insensitivity of the
unit). -/
theorem C4_duration_parsing_witness :
    Cooldowns.verifyCooldown (.inr "3 M") = .ok (some (3 * 60)) :=
  C4_duration_parsing.2.2.2.2.2.2.1 "3 M" "3" "M" 3 60
    (by decide) (by decide) (by decide) (by decide)

/-! Shared characterizations of the decision path and of `start`/`updateCooldown`. -/

theorem canRunAction_denied_of_active (st : CooldownsState) (u : InternalCooldownConfig)
    (now : ℤ) (key : Option String) (n : ℕ)
    (hb : Cooldowns.canBypass st u.userId = false)
    (hk : Cooldowns.getKey u.cooldownType u.userId u.actionId (some (u.guildId.getD "")) = .ok key)
    (he : mapGet st.cooldowns key = some (some (now + (n : ℤ) * 1000))) :
    Cooldowns.canRunAction st u now =
      (.ok (.denied (jsReplace (u.errorMessage.getD st.errorMessage) "\x7bTIME\x7d"
        ((if 0 < n / 86400 then toString (n / 86400) ++ "d " else "")
          ++ (if 0 < n % 86400 / 3600 then toString (n % 86400 / 3600) ++ "h " else "")
          ++ (if 0 < n % 3600 / 60 then toString (n % 3600 / 60) ++ "m " else "")
          ++ toString (n % 60) ++ "s"))), st) := by
  have hcond : jsNumGt (some ((now : ℤ) : ℚ))
      (Cooldowns.jsDateToNum (some (now + (n : ℤ) * 1000))) = false := by
    simp only [Cooldowns.jsDateToNum, jsNumGt, decide_eq_false_iff_not, not_lt]
    push_cast
    have h1000 : (0 : ℚ) ≤ (n : ℚ) * 1000 := by positivity
    linarith
  have hsd : Cooldowns.jsDateSecondsDiff (some (now + (n : ℤ) * 1000)) now = some ((n : ℕ) : ℚ) := by
    simp only [Cooldowns.jsDateSecondsDiff, Option.some.injEq]
    push_cast
    ring
  simp only [Cooldowns.canRunAction, hb, Bool.false_eq_true, if_false, hk, he,
    hcond, hsd, remainingTimeString_natCast]

theorem canRunAction_allows_after_expiry (st : CooldownsState) (u : InternalCooldownConfig)
    (now : ℤ) (key : Option String) (e : ℤ)
    (hb : Cooldowns.canBypass st u.userId = false)
    (hk : Cooldowns.getKey u.cooldownType u.userId u.actionId (some (u.guildId.getD "")) = .ok key)
    (he : mapGet st.cooldowns key = some (some e)) (hlt : e < now) :
    Cooldowns.canRunAction st u now =
      (.ok .allowed, { st with cooldowns := mapDelete st.cooldowns key }) := by
  have hcond : jsNumGt (some ((now : ℤ) : ℚ)) (Cooldowns.jsDateToNum (some e)) = true := by
    simp only [Cooldowns.jsDateToNum, jsNumGt, decide_eq_true_eq]
    exact_mod_cast hlt
  simp only [Cooldowns.canRunAction, hb, Bool.false_eq_true, if_false, hk, he, hcond, if_true]

theorem canRunAction_allows_of_missing (st : CooldownsState) (u : InternalCooldownConfig)
    (now : ℤ) (key : Option String)
    (hb : Cooldowns.canBypass st u.userId = false)
    (hk : Cooldowns.getKey u.cooldownType u.userId u.actionId (some (u.guildId.getD "")) = .ok key)
    (he : mapGet st.cooldowns key = none) :
    Cooldowns.canRunAction st u now = (.ok .allowed, st) := by
  simp only [Cooldowns.canRunAction, hb, Bool.false_eq_true, if_false, hk, he]

theorem ratTrunc_le_int {q : ℚ} {n : ℤ} (h : q ≤ (n : ℚ)) : ratTrunc q ≤ n := by
  unfold ratTrunc
  split
  · have hq : (-(n : ℤ) : ℚ) ≤ -q := by exact_mod_cast neg_le_neg h
    have h2 : (-n : ℤ) ≤ ⌊-q⌋ := Int.le_floor.mpr (by exact_mod_cast hq)
    linarith
  · have h2 : ⌊q⌋ ≤ ⌊(n : ℚ)⌋ := Int.floor_le_floor h
    simpa using h2

theorem start_writes (st : CooldownsState) (u : InternalCooldownConfig) (now : ℤ)
    (dur : ℚ ⊕ String) (sec : ℚ) (key : Option String)
    (hb : Cooldowns.canBypass st u.userId = false)
    (hct : cooldownTypes.contains u.cooldownType = true)
    (hdur : u.duration = some dur)
    (hsec : Cooldowns.verifyCooldown dur = .ok (some sec))
    (hk : Cooldowns.getKey u.cooldownType u.userId u.actionId (some (u.guildId.getD "")) = .ok key) :
    Cooldowns.start st u now = (.ok (), { st with
      db := if st.dbRequired ≤ sec
            then mapSet st.db key (some (Cooldowns.jsDateAddSeconds now sec))
            else st.db
      cooldowns := mapSet st.cooldowns key (some (Cooldowns.jsDateAddSeconds now sec)) }) := by
  simp only [Cooldowns.start, hb, Bool.false_eq_true, if_false, hct, Bool.not_true,
    Cooldowns.verifyCooldownOpt, hdur, hsec, hk, jsNumGe, decide_eq_true_eq]

theorem update_writes (st : CooldownsState) (v : InternalCooldownConfig) (now e : ℤ)
    (key : Option String)
    (hk : Cooldowns.getKeyFromCooldownUsage v = .ok key) :
    Cooldowns.updateCooldown st v (some e) now = (.ok (), { st with
      db := if st.dbRequired < ((e : ℚ) - (now : ℚ)) / 1000
            then mapSet st.db key (some e)
            else st.db
      cooldowns := mapSet st.cooldowns key (some e) }) := by
  simp only [Cooldowns.updateCooldown, hk, Cooldowns.jsDateSecondsDiff, jsNumGt,
    decide_eq_true_eq]

/-! Claim C1: behaviour at and after the expiry instant. -/

/-- C1, counterexample: at the instant the clock exactly equals the window's
`expiresAt` the action is NOT allowed — the guard of the source is the strict
`now > expires`, so at equality the request is denied with a `"0s"` message
and the fast-path entry is not purged. -/
theorem C1_exact_expiry_counterexample :
    Cooldowns.canRunAction
        ⟨[(some "u-a", some 1000)], [], "Please wait \x7bTIME\x7d before doing that again.",
          false, 300, []⟩
        { cooldownType := "perUser", userId := "u", actionId := "a" } 1000
      = (.ok (.denied "Please wait 0s before doing that again."),
         ⟨[(some "u-a", some 1000)], [], "Please wait \x7bTIME\x7d before doing that again.",
          false, 300, []⟩)
    ∧ RunResult.denied "Please wait 0s before doing that again." ≠ RunResult.allowed := by
  constructor
  · rw [canRunAction_denied_of_active _ _ _ (some "u-a") 0 (by decide) (by decide) (by decide)]
    decide
  · decide

/-- C1 (amended): for every request with an active window, `canRunAction` at
any time STRICTLY greater than the window's `expiresAt` returns the allowed
signal and removes the window's fast-path cache entry; a subsequent
`canRunAction` with the same request also returns allowed (and leaves the
state unchanged), without consulting the durable store, whose contents are
untouched. At the instant the clock exactly equals `expiresAt` the action is
still denied (see the counterexample). -/
theorem C1_strict_expiry_allows_and_purges (st : CooldownsState) (u : InternalCooldownConfig)
    (now : ℤ) (key : Option String) (e : ℤ)
    (hb : Cooldowns.canBypass st u.userId = false)
    (hk : Cooldowns.getKey u.cooldownType u.userId u.actionId (some (u.guildId.getD "")) = .ok key)
    (he : mapGet st.cooldowns key = some (some e)) (hlt : e < now) :
    Cooldowns.canRunAction st u now =
      (.ok .allowed, { st with cooldowns := mapDelete st.cooldowns key })
    ∧ Cooldowns.canRunAction { st with cooldowns := mapDelete st.cooldowns key } u now
        = (.ok .allowed, { st with cooldowns := mapDelete st.cooldowns key })
    ∧ ({ st with cooldowns := mapDelete st.cooldowns key }).db = st.db := by
  refine ⟨canRunAction_allows_after_expiry st u now key e hb hk he hlt, ?_, rfl⟩
  exact canRunAction_allows_of_missing _ u now key hb hk (mapGet_mapDelete_self st.cooldowns key)

/-- C1, witness: the amended theorem applied to a window that expired at 500
and a check at 1000. -/
theorem C1_strict_expiry_witness :
    Cooldowns.canRunAction ⟨[(some "u-a", some 500)], [], "m", false, 300, []⟩
        { cooldownType := "perUser", userId := "u", actionId := "a" } 1000
      = (.ok .allowed,
         { (⟨[(some "u-a", some 500)], [], "m", false, 300, []⟩ : CooldownsState) with
            cooldowns := mapDelete [(some "u-a", some 500)] (some "u-a") }) :=
  (C1_strict_expiry_allows_and_purges
    ⟨[(some "u-a", some 500)], [], "m", false, 300, []⟩
    { cooldownType := "perUser", userId := "u", actionId := "a" } 1000 (some "u-a") 500
    (by decide) (by decide) (by decide) (by decide)).1

/-! Claim C3: rendering of the remaining-time denial message. -/

/-- C3, counterexample: a remaining time of one day plus 30 seconds renders
as `"1d 30s"`, not `"1d 0h 0m 30s"` — the source omits EVERY zero-valued
unit among days/hours/minutes, not only the leading ones, so a zero unit
following a nonzero larger unit is dropped. -/
theorem C3_interior_zero_counterexample :
    Cooldowns.canRunAction
        ⟨[(some "u-a", some 86430000)], [], "Please wait \x7bTIME\x7d before doing that again.",
          false, 300, []⟩
        { cooldownType := "perUser", userId := "u", actionId := "a" } 0
      = (.ok (.denied "Please wait 1d 30s before doing that again."),
         ⟨[(some "u-a", some 86430000)], [], "Please wait \x7bTIME\x7d before doing that again.",
          false, 300, []⟩)
    ∧ "Please wait 1d 30s before doing that again."
        ≠ "Please wait 1d 0h 0m 30s before doing that again." := by
  constructor
  · rw [canRunAction_denied_of_active _ _ _ (some "u-a") 86430 (by decide) (by decide) (by decide)]
    decide
  · decide

/-- C3 (amended): when `canRunAction` finds a still-active window (no
bypass), it returns the configured or per-request error-message template
with its single `{TIME}` placeholder replaced by the remaining time rendered
by floor-division decomposition into days/hours/minutes/seconds, where EVERY
zero-valued unit among days, hours and minutes is omitted (leading or
interior) and the final seconds field is always present; e.g. one day plus
30 seconds renders as `"1d 30s"`. -/
theorem C3_denial_message_rendering (st : CooldownsState) (u : InternalCooldownConfig)
    (now : ℤ) (key : Option String) (n : ℕ)
    (hb : Cooldowns.canBypass st u.userId = false)
    (hk : Cooldowns.getKey u.cooldownType u.userId u.actionId (some (u.guildId.getD "")) = .ok key)
    (he : mapGet st.cooldowns key = some (some (now + (n : ℤ) * 1000))) :
    Cooldowns.canRunAction st u now =
      (.ok (.denied (jsReplace (u.errorMessage.getD st.errorMessage) "\x7bTIME\x7d"
        ((if 0 < n / 86400 then toString (n / 86400) ++ "d " else "")
          ++ (if 0 < n % 86400 / 3600 then toString (n % 86400 / 3600) ++ "h " else "")
          ++ (if 0 < n % 3600 / 60 then toString (n % 3600 / 60) ++ "m " else "")
          ++ toString (n % 60) ++ "s"))), st) :=
  canRunAction_denied_of_active st u now key n hb hk he

/-- C3, witness: a remaining time of 1 day, 1 hour, 1 minute and 1 second
(n = 90061) renders every unit. -/
theorem C3_denial_message_witness :
    Cooldowns.canRunAction
        ⟨[(some "u-a", some 90061000)], [], "Please wait \x7bTIME\x7d before doing that again.",
          false, 300, []⟩
        { cooldownType := "perUser", userId := "u", actionId := "a" } 0
      = (.ok (.denied "Please wait 1d 1h 1m 1s before doing that again."),
         ⟨[(some "u-a", some 90061000)], [], "Please wait \x7bTIME\x7d before doing that again.",
          false, 300, []⟩) := by
  rw [C3_denial_message_rendering _ _ _ (some "u-a") 90061 (by decide) (by decide) (by decide)]
  decide

/-! Claim C5: the two-tier write policy of `start` and `updateCooldown`. -/

/-- C5: `start` with a valid, non-bypassing request unconditionally writes
`key ↦ expiresAt` into the fast-path cache (and the overwrite wins, as the
`mapGet` conjunct shows), upserting the durable record exactly when the
parsed duration is at least the durability threshold (`>=` in the source,
default 300); `updateCooldown` always overwrites the fast-path entry and
upserts the durable record exactly when `(newExpiresAt - now)/1000` is
STRICTLY greater than the threshold, which lets a window started below
threshold be promoted to durable. -/
theorem C5_two_tier_write_policy (st : CooldownsState) (u : InternalCooldownConfig)
    (now : ℤ) (dur : ℚ ⊕ String) (sec : ℚ) (key : Option String)
    (hb : Cooldowns.canBypass st u.userId = false)
    (hct : cooldownTypes.contains u.cooldownType = true)
    (hdur : u.duration = some dur)
    (hsec : Cooldowns.verifyCooldown dur = .ok (some sec))
    (hk : Cooldowns.getKey u.cooldownType u.userId u.actionId (some (u.guildId.getD "")) = .ok key) :
    Cooldowns.start st u now = (.ok (), { st with
      db := if st.dbRequired ≤ sec
            then mapSet st.db key (some (Cooldowns.jsDateAddSeconds now sec))
            else st.db
      cooldowns := mapSet st.cooldowns key (some (Cooldowns.jsDateAddSeconds now sec)) })
    ∧ mapGet (mapSet st.cooldowns key (some (Cooldowns.jsDateAddSeconds now sec))) key
        = some (some (Cooldowns.jsDateAddSeconds now sec))
    ∧ (∀ (v : InternalCooldownConfig) (e : ℤ) (key₂ : Option String),
        Cooldowns.getKeyFromCooldownUsage v = .ok key₂ →
        Cooldowns.updateCooldown st v (some e) now = (.ok (), { st with
          db := if st.dbRequired < ((e : ℚ) - (now : ℚ)) / 1000
                then mapSet st.db key₂ (some e)
                else st.db
          cooldowns := mapSet st.cooldowns key₂ (some e) }))
    ∧ (∀ owners : List String, (Cooldowns.mk owners {}).dbRequired = 300) :=
  ⟨start_writes st u now dur sec key hb hct hdur hsec hk,
   mapGet_mapSet_self _ _ _,
   fun v e key₂ hk₂ => update_writes st v now e key₂ hk₂,
   fun _ => rfl⟩

/-- C5, witness: `start` with a numeric 600-second duration on a fresh
default-configured instance (threshold 300, so the durable upsert fires). -/
theorem C5_two_tier_witness :
    Cooldowns.start (Cooldowns.mk [] {})
        { cooldownType := "perUser", userId := "u", actionId := "a",
          duration := some (.inl 600) } 0
      = (.ok (), { Cooldowns.mk [] {} with
          db := if (Cooldowns.mk [] {}).dbRequired ≤ 600
                then mapSet (Cooldowns.mk [] {}).db (some "u-a")
                       (some (Cooldowns.jsDateAddSeconds 0 600))
                else (Cooldowns.mk [] {}).db
          cooldowns := mapSet (Cooldowns.mk [] {}).cooldowns (some "u-a")
                         (some (Cooldowns.jsDateAddSeconds 0 600)) }) :=
  (C5_two_tier_write_policy (Cooldowns.mk [] {})
    { cooldownType := "perUser", userId := "u", actionId := "a", duration := some (.inl 600) }
    0 (.inl 600) 600 (some "u-a") (by decide) (by decide) rfl rfl (by decide)).1

/-! Claim C6: guild-scoped requests without a guild id. -/

/-- C6, counterexample: `start` parses the duration BEFORE deriving the key,
so a guild-scoped request with no guild id but a malformed duration fails
with the malformed-duration error, not with `InvalidScopeError`. -/
theorem C6_malformed_duration_precedes_scope_error :
    (Cooldowns.start (Cooldowns.mk [] {})
        { cooldownType := "perGuild", userId := "u", actionId := "a",
          duration := some (.inr "10 x") } 0).1
      = .error (.unknownDurationType "x")
    ∧ CooldownError.unknownDurationType "x" ≠ CooldownError.invalidScope "perGuild" := by
  exact ⟨by decide, by decide⟩

/-- C6 (amended): for every non-bypassing request whose scope is
`perUserPerGuild` or `perGuild` and whose guild id is absent or empty,
`canRunAction`, `cancelCooldown` and `updateCooldown` fail with
`InvalidScopeError`; `start` fails with `InvalidScopeError` provided its
duration argument is well-formed (with a malformed duration it fails with
the duration error instead, see the counterexample), and in every case
`start` leaves both stores untouched — the error is raised before any state
mutation. -/
theorem C6_guild_scope_requires_guild (st : CooldownsState) (u : InternalCooldownConfig)
    (now : ℤ) (e : JsDate)
    (hscope : u.cooldownType = "perUserPerGuild" ∨ u.cooldownType = "perGuild")
    (hguild : u.guildId.getD "" = "")
    (hb : Cooldowns.canBypass st u.userId = false) :
    Cooldowns.canRunAction st u now = (.error (.invalidScope u.cooldownType), st)
    ∧ Cooldowns.cancelCooldown st u = (.error (.invalidScope u.cooldownType), st)
    ∧ Cooldowns.updateCooldown st u e now = (.error (.invalidScope u.cooldownType), st)
    ∧ ((∃ sec, Cooldowns.verifyCooldownOpt u.duration = .ok sec) →
        Cooldowns.start st u now = (.error (.invalidScope u.cooldownType), st))
    ∧ (Cooldowns.start st u now).2 = st := by
  have hkey : Cooldowns.getKey u.cooldownType u.userId u.actionId (some (u.guildId.getD ""))
      = .error (.invalidScope u.cooldownType) := by
    rcases hscope with h | h <;> simp [Cooldowns.getKey, h, hguild]
  have hkey' : Cooldowns.getKeyFromCooldownUsage u = .error (.invalidScope u.cooldownType) := by
    unfold Cooldowns.getKeyFromCooldownUsage Cooldowns.getKey
    rcases hscope with h | h <;> simp [h, hguild]
  have hct : cooldownTypes.contains u.cooldownType = true := by
    rcases hscope with h | h <;> simp [cooldownTypes, h]
  refine ⟨?_, ?_, ?_, ?_, ?_⟩
  · simp only [Cooldowns.canRunAction, hb, Bool.false_eq_true, if_false, hkey]
  · simp only [Cooldowns.cancelCooldown, hkey']
  · simp only [Cooldowns.updateCooldown, hkey']
  · rintro ⟨sec, hsec⟩
    simp only [Cooldowns.start, hb, Bool.false_eq_true, if_false, hct, Bool.not_true, hsec, hkey]
  · rcases hv : Cooldowns.verifyCooldownOpt u.duration with err | sec
    · simp only [Cooldowns.start, hb, Bool.false_eq_true, if_false, hct, Bool.not_true, hv]
    · simp only [Cooldowns.start, hb, Bool.false_eq_true, if_false, hct, Bool.not_true, hv, hkey]

/-- C6, witness: a `perGuild` request with an absent guild id and a valid
5-second duration is rejected by `canRunAction` with `InvalidScopeError`. -/
theorem C6_guild_scope_witness :
    Cooldowns.canRunAction (Cooldowns.mk [] {})
        { cooldownType := "perGuild", userId := "u", actionId := "a",
          duration := some (.inl 5) } 0
      = (.error (.invalidScope "perGuild"), Cooldowns.mk [] {}) :=
  (C6_guild_scope_requires_guild (Cooldowns.mk [] {})
    { cooldownType := "perGuild", userId := "u", actionId := "a", duration := some (.inl 5) }
    0 (some 99) (Or.inr rfl) rfl (by decide)).1

/-! Claims C7, C8, C9, C10. -/

/-- C7: for every user for whom `canBypass` holds (owner bypass enabled and
the user listed in `botOwners`), `canRunAction` returns allowed regardless
of any existing window for the derived key, and `start` is a no-op that
creates no window and mutates neither store. -/
theorem C7_bypass_always_allowed (st : CooldownsState) (u : InternalCooldownConfig) (now : ℤ)
    (h : Cooldowns.canBypass st u.userId = true) :
    Cooldowns.canRunAction st u now = (.ok .allowed, st)
    ∧ Cooldowns.start st u now = (.ok (), st) := by
  constructor
  · simp [Cooldowns.canRunAction, h]
  · simp [Cooldowns.start, h]

/-- C7, witness: a listed owner with the bypass flag enabled is allowed past
an active window, and `start` changes nothing. -/
theorem C7_bypass_witness :
    Cooldowns.canRunAction
        ⟨[(some "boss-a", some 99999999)], [], "m", true, 300, ["boss"]⟩
        { cooldownType := "perUser", userId := "boss", actionId := "a",
          duration := some (.inl 10) } 0
      = (.ok .allowed, ⟨[(some "boss-a", some 99999999)], [], "m", true, 300, ["boss"]⟩)
    ∧ Cooldowns.start
        ⟨[(some "boss-a", some 99999999)], [], "m", true, 300, ["boss"]⟩
        { cooldownType := "perUser", userId := "boss", actionId := "a",
          duration := some (.inl 10) } 0
      = (.ok (), ⟨[(some "boss-a", some 99999999)], [], "m", true, 300, ["boss"]⟩) :=
  C7_bypass_always_allowed
    ⟨[(some "boss-a", some 99999999)], [], "m", true, 300, ["boss"]⟩
    { cooldownType := "perUser", userId := "boss", actionId := "a", duration := some (.inl 10) }
    0 (by decide)

/-- C8: `canRunAction` never performs any durable-store operation — for
every request, every state and every clock value, whatever the outcome
(allowed, lazy-expiry purge of the fast-path entry, denial, or a thrown
scope error), the durable store component of the state is left unchanged. -/
theorem C8_canRunAction_never_touches_durable (st : CooldownsState)
    (u : InternalCooldownConfig) (now : ℤ) :
    ((Cooldowns.canRunAction st u now).2).db = st.db :=
  canRunAction_db_frame st u now

/-- C9: positivity is enforced only for string durations — a numeric
duration, zero or negative included, passes `verifyCooldown` unchanged, and
`start` with a valid non-bypassing request and a non-positive numeric
duration succeeds, installing a window whose `expiresAt` is at or before the
current time (an already-expired window). -/
theorem C9_numeric_duration_unvalidated (st : CooldownsState) (u : InternalCooldownConfig)
    (now : ℤ) (d : ℚ) (key : Option String)
    (hb : Cooldowns.canBypass st u.userId = false)
    (hct : cooldownTypes.contains u.cooldownType = true)
    (hdur : u.duration = some (.inl d))
    (hd : d ≤ 0)
    (hk : Cooldowns.getKey u.cooldownType u.userId u.actionId (some (u.guildId.getD "")) = .ok key) :
    (∀ q : ℚ, Cooldowns.verifyCooldown (.inl q) = .ok (some q))
    ∧ (Cooldowns.start st u now).1 = .ok ()
    ∧ mapGet ((Cooldowns.start st u now).2).cooldowns key
        = some (some (Cooldowns.jsDateAddSeconds now d))
    ∧ Cooldowns.jsDateAddSeconds now d ≤ now := by
  have hstart := start_writes st u now (.inl d) d key hb hct hdur rfl hk
  refine ⟨fun q => rfl, by rw [hstart], ?_, ?_⟩
  · rw [hstart]
    exact mapGet_mapSet_self _ _ _
  · unfold Cooldowns.jsDateAddSeconds
    apply ratTrunc_le_int
    have : d * 1000 ≤ 0 := by nlinarith
    linarith

/-- C9, witness: `start` with the numeric duration -5 installs a window
already expired at the start instant. -/
theorem C9_negative_duration_witness :
    (Cooldowns.start (Cooldowns.mk [] {})
        { cooldownType := "perUser", userId := "u", actionId := "a",
          duration := some (.inl (-5)) } 0).1 = .ok ()
    ∧ mapGet ((Cooldowns.start (Cooldowns.mk [] {})
        { cooldownType := "perUser", userId := "u", actionId := "a",
          duration := some (.inl (-5)) } 0).2).cooldowns (some "u-a")
        = some (some (Cooldowns.jsDateAddSeconds 0 (-5)))
    ∧ Cooldowns.jsDateAddSeconds 0 (-5) ≤ 0 :=
  (C9_numeric_duration_unvalidated (Cooldowns.mk [] {})
    { cooldownType := "perUser", userId := "u", actionId := "a", duration := some (.inl (-5)) }
    0 (-5) (some "u-a") (by decide) (by decide) rfl (by norm_num) (by decide)).2

/-- C10: key derivation is not injective across scopes — a `global` request
with action id `"u-a"` and a `perUser` request with user `"u"`, action `"a"`
derive the same key `"u-a"`, so after the `perUser` window is started, a
`global` check with action id `"u-a"` observes (and is denied by) that
window, a `global` cancel removes it, and the original `perUser` check then
succeeds. -/
theorem C10_cross_scope_key_collision :
    Cooldowns.getKey "global" "x" "u-a" (some "") = .ok (some "u-a")
    ∧ Cooldowns.getKey "perUser" "u" "a" (some "") = .ok (some "u-a")
    ∧ Cooldowns.start (Cooldowns.mk [] {})
        { cooldownType := "perUser", userId := "u", actionId := "a",
          duration := some (.inl 10) } 0
        = (.ok (), { Cooldowns.mk [] {} with cooldowns := [(some "u-a", some 10000)] })
    ∧ Cooldowns.canRunAction
        { Cooldowns.mk [] {} with cooldowns := [(some "u-a", some 10000)] }
        { cooldownType := "global", userId := "x", actionId := "u-a" } 0
        = (.ok (.denied "Please wait 10s before doing that again."),
           { Cooldowns.mk [] {} with cooldowns := [(some "u-a", some 10000)] })
    ∧ Cooldowns.cancelCooldown
        { Cooldowns.mk [] {} with cooldowns := [(some "u-a", some 10000)] }
        { cooldownType := "global", userId := "x", actionId := "u-a" }
        = (.ok (), Cooldowns.mk [] {})
    ∧ Cooldowns.canRunAction (Cooldowns.mk [] {})
        { cooldownType := "perUser", userId := "u", actionId := "a" } 0
        = (.ok .allowed, Cooldowns.mk [] {}) := by
  have h10000 : Cooldowns.jsDateAddSeconds 0 10 = 10000 := by
    unfold Cooldowns.jsDateAddSeconds ratTrunc
    rw [show ((0 : ℤ) : ℚ) + 10 * 1000 = ((10000 : ℤ) : ℚ) by norm_num]
    rw [if_neg (by norm_num), Int.floor_intCast]
  refine ⟨by decide, by decide, ?_, ?_, by decide, by decide⟩
  · rw [start_writes (Cooldowns.mk [] {}) _ 0 (.inl 10) 10 (some "u-a")
      (by decide) (by decide) rfl rfl (by decide)]
    rw [if_neg (by norm_num [Cooldowns.mk])]
    rw [h10000]
    rfl
  · rw [canRunAction_denied_of_active _ _ 0 (some "u-a") 10 (by decide) (by decide) (by decide)]
    decide
